import Mathlib

/-!
Shallow embedding of the SmartAttend real-time attendance pipeline
(`backend/api/consumers.py`, `backend/api/models.py`,
`backend/api/face_recognition_service.py`) and proofs about it.

Conventions of the embedding:
* Python `int` is `Int`, Python floats that only ever hold decimal
  configuration values and scores are `ℚ`.
* `session_sighting_counts : Dict[int, int]` is an association list with
  Python-dict update semantics (`dictSet` replaces the binding in place).
* `session_recognized_students : Set[int]` is a duplicate-free list with
  idempotent `add` (`pyAdd`).
* Fallible pipeline stages (temp-file save, the DeepFace detection call)
  are explicit parameters: `Bool` for `_save_temp_image` returning `None`,
  `Except String _` for a stage that may raise.
* `Student.objects.get` is a total function `Int → StudentRec`: the ids fed
  to it come from `known_faces_cache`, whose keys are built from enrolled
  students in `prepare_face_recognition_db`.
* Image pixel data is not modelled; the annotated image is represented by
  the list of `_draw_recognition_box` calls made on it.
-/

namespace SmartAttend

/-- Source constant `AttendanceConsumer.SIGHTING_THRESHOLD = 3` (consumers.py line 28). -/
def SIGHTING_THRESHOLD : Nat := 3

/-- Source constant `AttendanceConsumer.MAX_FACES_PER_FRAME = 50` (consumers.py line 29). -/
def MAX_FACES_PER_FRAME : Nat := 50

/-- Source constant `AttendanceConsumer.RECOGNITION_THRESHOLD = getattr(settings,
'FACE_RECOGNITION_THRESHOLD', 0.6)`; `settings.py` line 308 sets
`FACE_RECOGNITION_THRESHOLD` with default value `'0.68'`. -/
def RECOGNITION_THRESHOLD : ℚ := 68 / 100

/-- Python dict read with default: `d.get(k, dflt)`. -/
def dictGetD {κ α : Type} [DecidableEq κ] (d : List (κ × α)) (k : κ) (dflt : α) : α :=
  match d with
  | [] => dflt
  | (k', v) :: rest => if k' = k then v else dictGetD rest k dflt

/-- Python dict write: `d[k] = v` (replaces an existing binding in place). -/
def dictSet {κ α : Type} [DecidableEq κ] (d : List (κ × α)) (k : κ) (v : α) : List (κ × α) :=
  match d with
  | [] => [(k, v)]
  | (k', v') :: rest => if k' = k then (k, v) :: rest else (k', v') :: dictSet rest k v

/-- Python dict membership test / `d.get(k)`. -/
def dictLookup {κ α : Type} [DecidableEq κ] (d : List (κ × α)) (k : κ) : Option α :=
  match d with
  | [] => none
  | (k', v) :: rest => if k' = k then some v else dictLookup rest k

/-- Python `set.add` (idempotent). -/
def pyAdd (s : List Int) (x : Int) : List Int :=
  if x ∈ s then s else x :: s

/-- One entry of the list returned by
`face_recognition_service.find_faces_in_image`, as the consumer loop reads
it: `face_info['bbox']`, `face_info.get('student_id')`,
`face_info.get('confidence', 0)`. -/
structure FaceInfo where
  bbox : Int × Int × Int × Int
  student_id : Option String
  confidence : Option ℚ
deriving Repr, DecidableEq

/-- Reads `confidence = face_info.get('confidence', 0)` (consumers.py line 194). -/
def confidenceVal (f : FaceInfo) : ℚ :=
  f.confidence.getD 0

/-- The fields of a `Student` row used by the consumer
(`models.py` lines 79-96). -/
structure StudentRec where
  first_name : String
  last_name : String
  student_id : String
deriving Repr, DecidableEq

/-- One element of `newly_confirmed_this_frame`
(consumers.py lines 224-229). -/
structure ConfirmedEvent where
  id : Int
  name : String
  student_id : String
  confidence : ℚ
deriving Repr, DecidableEq

/-- One `_draw_recognition_box` call on the annotated image
(consumers.py lines 306-328): label text, bbox, BGR color, confidence. -/
structure Draw where
  label : String
  x : Int
  y : Int
  w : Int
  h : Int
  color : Nat × Nat × Nat
  confidence : ℚ
deriving Repr, DecidableEq

/-- The per-session recognition state owned by the consumer
(consumers.py lines 46-47): `session_recognized_students : Set[int]` and
`session_sighting_counts : Dict[int, int]`. -/
structure SessionState where
  recognized : List Int
  sightings : List (Int × Nat)
deriving Repr, DecidableEq

/-- State right after `connect` initializes it (consumers.py lines 46-47). -/
def initState : SessionState := ⟨[], []⟩

/-- Python `str.replace`, scanning left to right and replacing every
non-overlapping occurrence of `pat`. The fuel argument is an upper bound
on the scan steps (each step consumes at least one character). -/
def pyReplaceAux (pat rep : List Char) : Nat → List Char → List Char
  | _, [] => []
  | 0, s => s
  | fuel + 1, c :: cs =>
    if pat ≠ [] ∧ (c :: cs).take pat.length = pat then
      rep ++ pyReplaceAux pat rep fuel (List.drop (pat.length - 1) cs)
    else
      c :: pyReplaceAux pat rep fuel cs

/-- Python `s.replace(pat, rep)`. -/
def pyReplace (s pat rep : String) : String :=
  ⟨pyReplaceAux pat.data rep.data s.data.length s.data⟩

/-- Numeric value of a decimal digit character, `none` otherwise. -/
def digitVal (c : Char) : Option Nat :=
  if '0' ≤ c ∧ c ≤ '9' then some (c.toNat - '0'.toNat) else none

/-- Left-to-right accumulation of decimal digits; fails on a non-digit. -/
def digitsToNat : List Char → Nat → Option Nat
  | [], acc => some acc
  | c :: cs, acc =>
    match digitVal c with
    | some d => digitsToNat cs (acc * 10 + d)
    | none => none

/-- Python `int(s)` on the strings this pipeline feeds it (an optional sign
followed by decimal digits); anything else raises `ValueError`, modelled
as `none`. -/
def pyInt (s : String) : Option Int :=
  match s.data with
  | [] => none
  | '-' :: rest =>
    match rest with
    | [] => none
    | _ => (digitsToNat rest 0).map (fun n => -(n : Int))
  | l =>
    match digitsToNat l 0, l with
    | _, [] => none
    | r, _ => r.map (fun n => (n : Int))

/-- Models `int(student_id.replace('student_', ''))`, with the surrounding
`try/except (ValueError, AttributeError): continue`
(consumers.py lines 198-201). -/
def parseStudentId (s : String) : Option Int :=
  pyInt (pyReplace s "student_" "")

/-- The body of the per-face loop of
`AttendanceConsumer.process_frame_for_recognition`
(consumers.py lines 190-256) for one `face_info`.
Returns the updated session state, the events appended to
`newly_confirmed_this_frame`, and the draw calls made on the annotated
image. `θ` is `RECOGNITION_THRESHOLD`, `db` is `Student.objects.get`. -/
def processFace (θ : ℚ) (db : Int → StudentRec) (st : SessionState) (f : FaceInfo) :
    SessionState × List ConfirmedEvent × List Draw :=
  let (x, y, w, h) := f.bbox
  let conf := confidenceVal f
  match f.student_id with
  | some s =>
    if s ≠ "" ∧ conf > 1 - θ then
      match parseStudentId s with
      | none => (st, [], [])
      | some sid =>
        if sid ∈ st.recognized then
          (st, [], [⟨(db sid).first_name, x, y, w, h, (0, 255, 0), conf⟩])
        else
          let n := dictGetD st.sightings sid 0 + 1
          let sightings := dictSet st.sightings sid n
          if SIGHTING_THRESHOLD ≤ n then
            (⟨pyAdd st.recognized sid, sightings⟩,
             [⟨sid, (db sid).first_name ++ " " ++ (db sid).last_name,
               (db sid).student_id, conf⟩],
             [⟨(db sid).first_name, x, y, w, h, (0, 255, 0), conf⟩])
          else
            (⟨st.recognized, sightings⟩, [],
             [⟨(db sid).first_name ++ "? (" ++ toString n ++ "/" ++
                 toString SIGHTING_THRESHOLD ++ ")",
               x, y, w, h, (0, 255, 255), conf⟩])
    else
      (st, [], [⟨"Unknown", x, y, w, h, (0, 0, 255), conf⟩])
  | none => (st, [], [⟨"Unknown", x, y, w, h, (0, 0, 255), conf⟩])

/-- The whole `for face_info in ...` loop over a list of detected faces,
accumulating events and draw calls in processing order. -/
def processFaces (θ : ℚ) (db : Int → StudentRec) (st : SessionState) :
    List FaceInfo → SessionState × List ConfirmedEvent × List Draw
  | [] => (st, [], [])
  | f :: rest =>
    let r1 := processFace θ db st f
    let r2 := processFaces θ db r1.1 rest
    (r2.1, r1.2.1 ++ r2.2.1, r1.2.2 ++ r2.2.2)

/-- Embeds `AttendanceConsumer.process_frame_for_recognition`
(consumers.py lines 168-266). `saveOk = false` models `_save_temp_image`
returning `None` (line 180); `detection` models the
`face_recognition_service.find_faces_in_image` call, `Except.error`
standing for any exception raised before the loop runs, which the
`except` clause at line 264 catches, returning `annotated_img, []`. -/
def process_frame_for_recognition (θ : ℚ) (db : Int → StudentRec) (st : SessionState)
    (saveOk : Bool) (detection : Except String (List FaceInfo)) :
    SessionState × List ConfirmedEvent × List Draw :=
  if saveOk = false then (st, [], [])
  else
    match detection with
    | .error _ => (st, [], [])
    | .ok detected_faces => processFaces θ db st (detected_faces.take MAX_FACES_PER_FRAME)

/-- The state of the optional `'image'` payload of a `frame` message inside
`AttendanceConsumer.process_frame` (consumers.py lines 128-140):
missing or empty base64 (line 131 early return), an image
`cv2.imdecode` cannot decode (line 140 early return), or a decoded image,
carried further as its save/detection outcome. -/
inductive ImagePayload where
  | missing
  | undecodable
  | decoded (saveOk : Bool) (detection : Except String (List FaceInfo))

/-- An inbound WebSocket message as `AttendanceConsumer.receive` classifies
it (consumers.py lines 99-123): `malformed` is text on which `json.loads`
raises `JSONDecodeError`; otherwise the message is dispatched on
`data.get('type', 'frame')`. -/
inductive InboundMsg where
  | malformed
  | ping
  | unknownType (t : String)
  | frame (img : ImagePayload)

/-- An outbound WebSocket message sent by the consumer. `frameUpdate`
carries `newly_recognized` and `total_recognized_count` (the encoded
annotated image is not modelled). -/
inductive OutMsg where
  | pong
  | errorMsg (message : String)
  | frameUpdate (newlyRecognized : List ConfirmedEvent) (totalRecognizedCount : Nat)
  | sessionReady (message : String) (totalStudents : Nat)
deriving DecidableEq

/-- Embeds `AttendanceConsumer.process_frame` (consumers.py lines 125-166):
extracts and decodes the image, runs recognition, and sends one
`frame_update` message; missing and undecodable images return without
sending anything. The `except` clause at line 165 only logs, so a
recognition-stage error still ends with a `frame_update` (the recognition
call itself absorbs its errors, returning `annotated_img, []`). -/
def process_frame (θ : ℚ) (db : Int → StudentRec) (st : SessionState)
    (p : ImagePayload) : SessionState × List OutMsg :=
  match p with
  | .missing => (st, [])
  | .undecodable => (st, [])
  | .decoded saveOk detection =>
    let r := process_frame_for_recognition θ db st saveOk detection
    (r.1, [.frameUpdate r.2.1 r.1.recognized.length])

/-- Embeds `AttendanceConsumer.receive` (consumers.py lines 99-123): returns the
session state after the message and the messages sent back on this
connection. The connection is never closed here; `malformed` hits the
`except json.JSONDecodeError` clause, which sends an error message and
keeps the session alive. -/
def receive (θ : ℚ) (db : Int → StudentRec) (st : SessionState) (m : InboundMsg) :
    SessionState × List OutMsg :=
  match m with
  | .malformed => (st, [.errorMsg "Invalid message format"])
  | .ping => (st, [.pong])
  | .unknownType _ => (st, [])
  | .frame p => process_frame θ db st p

/-- The inputs `AttendanceConsumer.prepare_face_recognition_db`
(consumers.py lines 330-379) reads: whether
`Course.objects.get(id=course_id)` succeeds, whether
`course.teacher == self.user`, and the enrolled students that pass the
`profile_photo__isnull=False` / non-empty filter, each paired with the
face-encoding extraction outcome (`none` for a missing photo file or a
failed/cached-failed `extract_face_encodings`). -/
structure PrepInput where
  courseExists : Bool
  isCourseTeacher : Bool
  studentsWithPhotos : List (Int × Option (List ℚ))
deriving DecidableEq

/-- The `known_faces_cache` built by the extraction loop of
`prepare_face_recognition_db` (consumers.py lines 351-365): one entry
keyed `"student_{id}"` per student whose encoding extraction succeeded. -/
def buildKnownFaces (students : List (Int × Option (List ℚ))) :
    List (String × List ℚ) :=
  students.foldl
    (fun acc p =>
      match p.2 with
      | some enc => dictSet acc ("student_" ++ toString p.1) enc
      | none => acc)
    []

/-- Embeds `AttendanceConsumer.prepare_face_recognition_db`
(consumers.py lines 330-379): returns the success flag and the
`known_faces_cache` it leaves behind. Fails on a missing course, a
permission mismatch, no students with photos, or an empty cache. -/
def prepare_face_recognition_db (inp : PrepInput) : Bool × List (String × List ℚ) :=
  if ¬ inp.courseExists then (false, [])
  else if ¬ inp.isCourseTeacher then (false, [])
  else if inp.studentsWithPhotos = [] then (false, [])
  else
    let cache := buildKnownFaces inp.studentsWithPhotos
    if cache = [] then (false, []) else (true, cache)

/-- An observable action of `AttendanceConsumer.connect`
(consumers.py lines 31-82), in order: accepting the socket, sending a
message, joining the channel-layer group (the point after which frames are
processed for this session), closing with a code. -/
inductive ConnAction where
  | accept
  | send (m : OutMsg)
  | groupJoin
  | close (code : Nat)
deriving DecidableEq

/-- Embeds `AttendanceConsumer.connect` (consumers.py lines 31-82): the sequence
of observable actions, plus the `known_faces_cache` the session keeps.
Unauthenticated users are closed with code 4001 (line 38); a failed
`prepare_face_recognition_db` sends an error and closes with code 4004
(lines 56-62); otherwise the session joins its group and announces
`session_ready` (lines 65-72). -/
def connect (authenticated : Bool) (course_id : Int) (inp : PrepInput) :
    List ConnAction × List (String × List ℚ) :=
  if ¬ authenticated then ([.close 4001], [])
  else
    let prep := prepare_face_recognition_db inp
    if prep.1 = false then
      ([.accept,
        .send (.errorMsg
          "Failed to prepare face recognition. Ensure students have profile photos."),
        .close 4004], prep.2)
    else
      ([.accept, .groupJoin,
        .send (.sessionReady
          ("Attendance session ready for course " ++ toString course_id)
          prep.2.length)], prep.2)

/-- A row of the `AttendanceRecord` table (models.py lines 113-127), with
the timestamp split into its date (`day`) and time-of-day (`time`)
components so that the `timestamp__date` lookup is expressible. -/
structure AttendanceRecord where
  student_id : Int
  course_id : Int
  day : Nat
  time : Nat
  is_present : Bool
deriving Repr, DecidableEq

/-- Whether a record matches the `get_or_create` lookup of
`mark_student_present`: same student, same course, timestamp on the same
date (consumers.py lines 402-405). -/
def attMatches (sid cid : Int) (day : Nat) (r : AttendanceRecord) : Bool :=
  r.student_id = sid ∧ r.course_id = cid ∧ r.day = day

/-- Embeds `AttendanceConsumer.mark_student_present` (consumers.py lines 397-416):
`AttendanceRecord.objects.get_or_create(student_id=..., course_id=...,
timestamp__date=today, defaults={'timestamp': now, 'is_present': True})`
over a table modelled as a list of rows. Returns the table afterwards, the
row found or created, and the `created` flag. -/
def mark_student_present (db : List AttendanceRecord) (sid cid : Int)
    (day time : Nat) : List AttendanceRecord × AttendanceRecord × Bool :=
  match db.find? (attMatches sid cid day) with
  | some r => (db, r, false)
  | none =>
    let r : AttendanceRecord := ⟨sid, cid, day, time, true⟩
    (db ++ [r], r, true)

/-- The number of attendance rows for one student/course/day. -/
def countMatching (db : List AttendanceRecord) (sid cid : Int) (day : Nat) : Nat :=
  (db.filter (attMatches sid cid day)).length

/-- The identity id a face qualifies for: the guard
`if student_id and confidence > (1 - self.RECOGNITION_THRESHOLD)` together
with the `int(student_id.replace('student_', ''))` conversion
(consumers.py lines 196-201), as one partial function. -/
def qualifyingId (θ : ℚ) (f : FaceInfo) : Option Int :=
  match f.student_id with
  | none => none
  | some s =>
    if s ≠ "" ∧ confidenceVal f > 1 - θ then parseStudentId s else none

/-- Face `f` is a qualifying match for identity `id` under threshold `θ`. -/
def faceMatchFor (θ : ℚ) (f : FaceInfo) (id : Int) : Prop :=
  qualifyingId θ f = some id

instance (θ : ℚ) (f : FaceInfo) (id : Int) : Decidable (faceMatchFor θ f id) := by
  unfold faceMatchFor; infer_instance

/-- The state/event skeleton of one iteration of the per-face loop: the
same transition as `processFace`, with the drawing and the student lookups
stripped away. The second component is the id confirmed by this face, if
any. -/
def faceStep (θ : ℚ) (st : SessionState) (f : FaceInfo) : SessionState × Option Int :=
  match qualifyingId θ f with
  | none => (st, none)
  | some sid =>
    if sid ∈ st.recognized then (st, none)
    else
      let n := dictGetD st.sightings sid 0 + 1
      let sightings := dictSet st.sightings sid n
      if SIGHTING_THRESHOLD ≤ n then (⟨pyAdd st.recognized sid, sightings⟩, some sid)
      else (⟨st.recognized, sightings⟩, none)

/-- The sighting count the consumer would read for `id`:
`self.session_sighting_counts.get(id, 0)`. -/
def countOf (st : SessionState) (id : Int) : Nat :=
  dictGetD st.sightings id 0

/-- Session-state invariant maintained by the per-face loop: a confirmed
identity sits in the sighting-count dict frozen at `SIGHTING_THRESHOLD`,
an unconfirmed one is strictly below the threshold. -/
def Inv (st : SessionState) : Prop :=
  ∀ id : Int,
    (id ∈ st.recognized → dictLookup st.sightings id = some SIGHTING_THRESHOLD) ∧
    (id ∉ st.recognized → countOf st id < SIGHTING_THRESHOLD)

/-- The session state after the consumer, starting from a fresh
connection, has run the per-face loop over the faces `fs` (in order,
possibly spanning several frames). -/
def sessionAfter (θ : ℚ) (db : Int → StudentRec) (fs : List FaceInfo) : SessionState :=
  (processFaces θ db initState fs).1

/-- A student table where every id resolves (concrete inputs only). -/
def trivialDB : Int → StudentRec := fun _ => ⟨"A", "B", "S1"⟩

/-- A concrete detected face that is a qualifying match for identity 1
under the default threshold: confidence 1/2 > 1 - 68/100. -/
def qFace : FaceInfo := ⟨(0, 0, 10, 10), some "student_1", some (1 / 2)⟩

/-- A concrete detected face whose confidence sits exactly on the boundary
`1 - RECOGNITION_THRESHOLD` (i.e. distance exactly at the threshold). -/
def bFace : FaceInfo := ⟨(0, 0, 10, 10), some "student_1", some (8 / 25)⟩

/-- A concrete setup input: one enrolled student with a photo whose
encoding extraction fails, so the known-faces cache comes up empty. -/
def emptyPrep : PrepInput := ⟨true, true, [(1, none)]⟩

theorem processFace_fst (θ : ℚ) (db : Int → StudentRec) (st : SessionState)
    (f : FaceInfo) : (processFace θ db st f).1 = (faceStep θ st f).1 := by
  rcases f with ⟨⟨x, y, w, h⟩, sid?, conf?⟩
  cases sid? with
  | none => simp [processFace, faceStep, qualifyingId]
  | some s =>
    simp only [processFace, faceStep, qualifyingId]
    split_ifs with h1
    · cases hp : parseStudentId s with
      | none => simp
      | some sid =>
        simp only
        split_ifs <;> simp
    · simp

theorem processFace_event_ids (θ : ℚ) (db : Int → StudentRec) (st : SessionState)
    (f : FaceInfo) :
    (processFace θ db st f).2.1.map (fun e => e.id) = (faceStep θ st f).2.toList := by
  rcases f with ⟨⟨x, y, w, h⟩, sid?, conf?⟩
  cases sid? with
  | none => simp [processFace, faceStep, qualifyingId]
  | some s =>
    simp only [processFace, faceStep, qualifyingId]
    split_ifs with h1
    · cases hp : parseStudentId s with
      | none => simp
      | some sid =>
        simp only
        split_ifs <;> simp
    · simp

theorem dictGetD_dictSet_self {κ α : Type} [DecidableEq κ]
    (d : List (κ × α)) (k : κ) (v dflt : α) :
    dictGetD (dictSet d k v) k dflt = v := by
  induction d with
  | nil => simp [dictSet, dictGetD]
  | cons p rest ih =>
    rcases p with ⟨k', v'⟩
    by_cases h : k' = k <;> simp [dictSet, dictGetD, h, ih]

theorem dictGetD_dictSet_ne {κ α : Type} [DecidableEq κ]
    (d : List (κ × α)) (k k' : κ) (v dflt : α) (h : k' ≠ k) :
    dictGetD (dictSet d k v) k' dflt = dictGetD d k' dflt := by
  have hne : k ≠ k' := Ne.symm h
  induction d with
  | nil => simp [dictSet, dictGetD, hne]
  | cons p rest ih =>
    rcases p with ⟨k₀, v₀⟩
    by_cases h₀ : k₀ = k
    · subst h₀
      simp [dictSet, dictGetD, hne]
    · simp [dictSet, dictGetD, h₀, ih]

theorem dictLookup_dictSet_self {κ α : Type} [DecidableEq κ]
    (d : List (κ × α)) (k : κ) (v : α) :
    dictLookup (dictSet d k v) k = some v := by
  induction d with
  | nil => simp [dictSet, dictLookup]
  | cons p rest ih =>
    rcases p with ⟨k', v'⟩
    by_cases h : k' = k <;> simp [dictSet, dictLookup, h, ih]

theorem dictLookup_dictSet_ne {κ α : Type} [DecidableEq κ]
    (d : List (κ × α)) (k k' : κ) (v : α) (h : k' ≠ k) :
    dictLookup (dictSet d k v) k' = dictLookup d k' := by
  have hne : k ≠ k' := Ne.symm h
  induction d with
  | nil => simp [dictSet, dictLookup, hne]
  | cons p rest ih =>
    rcases p with ⟨k₀, v₀⟩
    by_cases h₀ : k₀ = k
    · subst h₀
      simp [dictSet, dictLookup, hne]
    · simp [dictSet, dictLookup, h₀, ih]

theorem inv_initState : Inv initState := by
  intro id
  constructor
  · intro h; simp [initState] at h
  · intro _; simp [initState, countOf, dictGetD, SIGHTING_THRESHOLD]

theorem countOf_eq_lookup (st : SessionState) (id : Int) :
    countOf st id = (dictLookup st.sightings id).getD 0 := by
  unfold countOf
  induction st.sightings with
  | nil => simp [dictGetD, dictLookup]
  | cons p rest ih =>
    rcases p with ⟨k, v⟩
    by_cases h : k = id <;> simp [dictGetD, dictLookup, h, ih]

theorem mem_pyAdd (s : List Int) (x y : Int) : x ∈ pyAdd s y ↔ x = y ∨ x ∈ s := by
  unfold pyAdd
  split_ifs with h
  · constructor
    · exact Or.inr
    · rintro (rfl | hx)
      · exact h
      · exact hx
  · simp [List.mem_cons]

theorem faceStep_inv (θ : ℚ) (st : SessionState) (f : FaceInfo) (h : Inv st) :
    Inv (faceStep θ st f).1 := by
  cases hq : qualifyingId θ f with
  | none => simpa [faceStep, hq] using h
  | some sid =>
    by_cases hrec : sid ∈ st.recognized
    · simpa [faceStep, hq, hrec] using h
    · have hlt : dictGetD st.sightings sid 0 < SIGHTING_THRESHOLD := (h sid).2 hrec
      by_cases hth : SIGHTING_THRESHOLD ≤ dictGetD st.sightings sid 0 + 1
      · have hn : dictGetD st.sightings sid 0 + 1 = SIGHTING_THRESHOLD := by omega
        have hstep : (faceStep θ st f).1 =
            ⟨pyAdd st.recognized sid,
             dictSet st.sightings sid (dictGetD st.sightings sid 0 + 1)⟩ := by
          simp [faceStep, hq, hrec, hth]
        rw [hstep]
        intro id
        constructor
        · intro hid
          dsimp only at hid ⊢
          rcases (mem_pyAdd _ _ _).1 hid with rfl | hmem
          · rw [dictLookup_dictSet_self, hn]
          · have hne : id ≠ sid := fun he => hrec (he ▸ hmem)
            rw [dictLookup_dictSet_ne _ _ _ _ hne]
            exact (h id).1 hmem
        · intro hid
          dsimp only at hid
          have hne : id ≠ sid := fun he => hid (he ▸ (mem_pyAdd _ _ _).2 (Or.inl rfl))
          have hnm : id ∉ st.recognized := fun hm => hid ((mem_pyAdd _ _ _).2 (Or.inr hm))
          unfold countOf
          dsimp only
          rw [dictGetD_dictSet_ne _ _ _ _ _ hne]
          exact (h id).2 hnm
      · have hstep : (faceStep θ st f).1 =
            ⟨st.recognized, dictSet st.sightings sid (dictGetD st.sightings sid 0 + 1)⟩ := by
          simp [faceStep, hq, hrec, hth]
        rw [hstep]
        intro id
        constructor
        · intro hid
          dsimp only at hid ⊢
          have hne : id ≠ sid := fun he => hrec (he ▸ hid)
          rw [dictLookup_dictSet_ne _ _ _ _ hne]
          exact (h id).1 hid
        · intro hid
          dsimp only at hid
          unfold countOf
          dsimp only
          by_cases he : id = sid
          · subst he
            rw [dictGetD_dictSet_self]
            omega
          · rw [dictGetD_dictSet_ne _ _ _ _ _ he]
            exact (h id).2 hid

theorem processFaces_nil (θ : ℚ) (db : Int → StudentRec) (st : SessionState) :
    processFaces θ db st [] = (st, [], []) := rfl

theorem processFaces_cons (θ : ℚ) (db : Int → StudentRec) (st : SessionState)
    (f : FaceInfo) (rest : List FaceInfo) :
    processFaces θ db st (f :: rest) =
      ((processFaces θ db (processFace θ db st f).1 rest).1,
       (processFace θ db st f).2.1 ++ (processFaces θ db (processFace θ db st f).1 rest).2.1,
       (processFace θ db st f).2.2 ++ (processFaces θ db (processFace θ db st f).1 rest).2.2) :=
  rfl

theorem processFaces_inv (θ : ℚ) (db : Int → StudentRec) :
    ∀ (faces : List FaceInfo) (st : SessionState), Inv st →
      Inv (processFaces θ db st faces).1 := by
  intro faces
  induction faces with
  | nil => intro st h; simpa [processFaces_nil] using h
  | cons f rest ih =>
    intro st h
    rw [processFaces_cons]
    exact ih _ (by rw [processFace_fst]; exact faceStep_inv θ st f h)

theorem inv_sessionAfter (θ : ℚ) (db : Int → StudentRec) (fs : List FaceInfo) :
    Inv (sessionAfter θ db fs) :=
  processFaces_inv θ db fs initState inv_initState

theorem faceStep_event_iff (θ : ℚ) (st : SessionState) (f : FaceInfo) (id : Int) :
    (faceStep θ st f).2 = some id ↔
      (id ∈ (faceStep θ st f).1.recognized ∧ id ∉ st.recognized) := by
  cases hq : qualifyingId θ f with
  | none =>
    have hstep : faceStep θ st f = (st, none) := by simp [faceStep, hq]
    rw [hstep]
    simp
  | some sid =>
    by_cases hrec : sid ∈ st.recognized
    · have hstep : faceStep θ st f = (st, none) := by simp [faceStep, hq, hrec]
      rw [hstep]
      simp
    · by_cases hth : SIGHTING_THRESHOLD ≤ dictGetD st.sightings sid 0 + 1
      · have hstep : faceStep θ st f =
            (⟨pyAdd st.recognized sid,
              dictSet st.sightings sid (dictGetD st.sightings sid 0 + 1)⟩, some sid) := by
          simp [faceStep, hq, hrec, hth]
        rw [hstep]
        dsimp only
        constructor
        · intro hev
          injection hev with hev
          subst hev
          exact ⟨(mem_pyAdd _ _ _).2 (Or.inl rfl), hrec⟩
        · rintro ⟨hin, hout⟩
          rcases (mem_pyAdd _ _ _).1 hin with rfl | hmem
          · rfl
          · exact absurd hmem hout
      · have hstep : faceStep θ st f =
            (⟨st.recognized, dictSet st.sightings sid (dictGetD st.sightings sid 0 + 1)⟩,
             none) := by
          simp [faceStep, hq, hrec, hth]
        rw [hstep]
        dsimp only
        constructor
        · intro hev
          exact absurd hev (by simp)
        · rintro ⟨hin, hout⟩
          exact absurd hin hout

theorem faceStep_transition_iff (θ : ℚ) (st : SessionState) (f : FaceInfo) (id : Int)
    (h : Inv st) :
    (id ∈ (faceStep θ st f).1.recognized ∧ id ∉ st.recognized) ↔
      (faceMatchFor θ f id ∧ id ∉ st.recognized ∧
       countOf st id + 1 = SIGHTING_THRESHOLD ∧
       countOf (faceStep θ st f).1 id = SIGHTING_THRESHOLD) := by
  unfold faceMatchFor
  cases hq : qualifyingId θ f with
  | none =>
    have hstep : faceStep θ st f = (st, none) := by simp [faceStep, hq]
    rw [hstep]
    simp
  | some sid =>
    by_cases hrec : sid ∈ st.recognized
    · have hstep : faceStep θ st f = (st, none) := by simp [faceStep, hq, hrec]
      rw [hstep]
      dsimp only
      constructor
      · rintro ⟨hin, hout⟩
        exact absurd hin hout
      · rintro ⟨hm, hout, _, _⟩
        injection hm with hm
        subst hm
        exact absurd hrec hout
    · by_cases hth : SIGHTING_THRESHOLD ≤ dictGetD st.sightings sid 0 + 1
      · have hlt : dictGetD st.sightings sid 0 < SIGHTING_THRESHOLD := (h sid).2 hrec
        have hn : dictGetD st.sightings sid 0 + 1 = SIGHTING_THRESHOLD := by omega
        have hstep : (faceStep θ st f).1 =
            ⟨pyAdd st.recognized sid,
             dictSet st.sightings sid (dictGetD st.sightings sid 0 + 1)⟩ := by
          simp [faceStep, hq, hrec, hth]
        rw [hstep]
        dsimp only
        constructor
        · rintro ⟨hin, hout⟩
          rcases (mem_pyAdd _ _ _).1 hin with rfl | hmem
          · refine ⟨rfl, hrec, hn, ?_⟩
            unfold countOf
            dsimp only
            rw [dictGetD_dictSet_self]
            exact hn
          · exact absurd hmem hout
        · rintro ⟨hm, hout, _, _⟩
          injection hm with hm
          subst hm
          exact ⟨(mem_pyAdd _ _ _).2 (Or.inl rfl), hout⟩
      · have hstep : (faceStep θ st f).1 =
            ⟨st.recognized, dictSet st.sightings sid (dictGetD st.sightings sid 0 + 1)⟩ := by
          simp [faceStep, hq, hrec, hth]
        rw [hstep]
        dsimp only
        constructor
        · rintro ⟨hin, hout⟩
          exact absurd hin hout
        · rintro ⟨hm, hout, hcnt, _⟩
          injection hm with hm
          subst hm
          exfalso
          unfold countOf at hcnt
          omega

theorem faceStep_confirmed_frozen (θ : ℚ) (st : SessionState) (f : FaceInfo) (id : Int)
    (hid : id ∈ st.recognized) :
    countOf (faceStep θ st f).1 id = countOf st id ∧
    (faceStep θ st f).2 ≠ some id ∧
    id ∈ (faceStep θ st f).1.recognized := by
  cases hq : qualifyingId θ f with
  | none =>
    have hstep : faceStep θ st f = (st, none) := by simp [faceStep, hq]
    rw [hstep]
    exact ⟨rfl, by simp, hid⟩
  | some sid =>
    by_cases hrec : sid ∈ st.recognized
    · have hstep : faceStep θ st f = (st, none) := by simp [faceStep, hq, hrec]
      rw [hstep]
      exact ⟨rfl, by simp, hid⟩
    · have hne : id ≠ sid := fun he => hrec (he ▸ hid)
      by_cases hth : SIGHTING_THRESHOLD ≤ dictGetD st.sightings sid 0 + 1
      · have hstep : faceStep θ st f =
            (⟨pyAdd st.recognized sid,
              dictSet st.sightings sid (dictGetD st.sightings sid 0 + 1)⟩, some sid) := by
          simp [faceStep, hq, hrec, hth]
        rw [hstep]
        dsimp only
        refine ⟨?_, ?_, ?_⟩
        · unfold countOf
          dsimp only
          exact dictGetD_dictSet_ne _ _ _ _ _ hne
        · intro hev
          injection hev with hev
          exact hne hev.symm
        · exact (mem_pyAdd _ _ _).2 (Or.inr hid)
      · have hstep : faceStep θ st f =
            (⟨st.recognized, dictSet st.sightings sid (dictGetD st.sightings sid 0 + 1)⟩,
             none) := by
          simp [faceStep, hq, hrec, hth]
        rw [hstep]
        dsimp only
        refine ⟨?_, by simp, hid⟩
        unfold countOf
        dsimp only
        exact dictGetD_dictSet_ne _ _ _ _ _ hne

theorem processFace_event_for_iff (θ : ℚ) (db : Int → StudentRec) (st : SessionState)
    (f : FaceInfo) (id : Int) :
    (∃ e ∈ (processFace θ db st f).2.1, e.id = id) ↔ (faceStep θ st f).2 = some id := by
  constructor
  · rintro ⟨e, he, rfl⟩
    have hmem : e.id ∈ (processFace θ db st f).2.1.map (fun e => e.id) :=
      List.mem_map_of_mem _ he
    rw [processFace_event_ids] at hmem
    cases hs : (faceStep θ st f).2 with
    | none => rw [hs] at hmem; simp at hmem
    | some a =>
      rw [hs] at hmem
      simp at hmem
      rw [hmem]
  · intro hev
    have hmem : id ∈ (faceStep θ st f).2.toList := by rw [hev]; simp
    rw [← processFace_event_ids] at hmem
    rcases List.mem_map.1 hmem with ⟨e, he, hid⟩
    exact ⟨e, he, hid⟩

theorem faceStep_increment (θ : ℚ) (st : SessionState) (f : FaceInfo) (id : Int)
    (hm : qualifyingId θ f = some id) (hout : id ∉ st.recognized) :
    countOf (faceStep θ st f).1 id = countOf st id + 1 := by
  by_cases hth : SIGHTING_THRESHOLD ≤ dictGetD st.sightings id 0 + 1
  · have hstep : (faceStep θ st f).1 =
        ⟨pyAdd st.recognized id, dictSet st.sightings id (dictGetD st.sightings id 0 + 1)⟩ := by
      simp [faceStep, hm, hout, hth]
    rw [hstep]
    unfold countOf
    dsimp only
    rw [dictGetD_dictSet_self]
  · have hstep : (faceStep θ st f).1 =
        ⟨st.recognized, dictSet st.sightings id (dictGetD st.sightings id 0 + 1)⟩ := by
      simp [faceStep, hm, hout, hth]
    rw [hstep]
    unfold countOf
    dsimp only
    rw [dictGetD_dictSet_self]

theorem faceStep_no_increment (θ : ℚ) (st : SessionState) (f : FaceInfo) (id : Int)
    (hnm : qualifyingId θ f ≠ some id) :
    countOf (faceStep θ st f).1 id = countOf st id := by
  cases hq : qualifyingId θ f with
  | none =>
    have hstep : (faceStep θ st f).1 = st := by simp [faceStep, hq]
    rw [hstep]
  | some sid =>
    have hne : id ≠ sid := fun he => hnm (he ▸ hq)
    by_cases hrec : sid ∈ st.recognized
    · have hstep : (faceStep θ st f).1 = st := by simp [faceStep, hq, hrec]
      rw [hstep]
    · by_cases hth : SIGHTING_THRESHOLD ≤ dictGetD st.sightings sid 0 + 1
      · have hstep : (faceStep θ st f).1 =
            ⟨pyAdd st.recognized sid,
             dictSet st.sightings sid (dictGetD st.sightings sid 0 + 1)⟩ := by
          simp [faceStep, hq, hrec, hth]
        rw [hstep]
        unfold countOf
        dsimp only
        exact dictGetD_dictSet_ne _ _ _ _ _ hne
      · have hstep : (faceStep θ st f).1 =
            ⟨st.recognized, dictSet st.sightings sid (dictGetD st.sightings sid 0 + 1)⟩ := by
          simp [faceStep, hq, hrec, hth]
        rw [hstep]
        unfold countOf
        dsimp only
        exact dictGetD_dictSet_ne _ _ _ _ _ hne

theorem qualifyingId_eq_some_iff (θ : ℚ) (f : FaceInfo) (id : Int) :
    qualifyingId θ f = some id ↔
      ((∃ s, f.student_id = some s ∧ s ≠ "" ∧ parseStudentId s = some id) ∧
        confidenceVal f > 1 - θ) := by
  cases hs : f.student_id with
  | none => simp [qualifyingId, hs]
  | some s =>
    simp only [qualifyingId, hs]
    split_ifs with h
    · constructor
      · intro hp
        exact ⟨⟨s, rfl, h.1, hp⟩, h.2⟩
      · rintro ⟨⟨s', hs', _, hp'⟩, _⟩
        injection hs' with hs'
        subst hs'
        exact hp'
    · constructor
      · intro hp
        exact absurd hp (by simp)
      · rintro ⟨⟨s', hs', hne', _⟩, hconf⟩
        injection hs' with hs'
        subst hs'
        exact absurd ⟨hne', hconf⟩ h

theorem qFace_matches : qualifyingId RECOGNITION_THRESHOLD qFace = some 1 := by
  norm_num [qualifyingId, qFace, confidenceVal, RECOGNITION_THRESHOLD,
    show parseStudentId "student_1" = some 1 from by decide,
    show ("student_1" : String) ≠ "" from by decide]

theorem eval_two_qFaces :
    sessionAfter RECOGNITION_THRESHOLD trivialDB [qFace, qFace] = ⟨[], [(1, 2)]⟩ := by
  norm_num [sessionAfter, processFaces, processFace, qFace, confidenceVal,
    RECOGNITION_THRESHOLD, initState, dictGetD, dictSet, SIGHTING_THRESHOLD,
    show parseStudentId "student_1" = some 1 from by decide,
    show ("student_1" : String) ≠ "" from by decide]

theorem eval_three_qFaces :
    sessionAfter RECOGNITION_THRESHOLD trivialDB [qFace, qFace, qFace] =
      ⟨[1], [(1, 3)]⟩ := by
  norm_num [sessionAfter, processFaces, processFace, qFace, confidenceVal,
    RECOGNITION_THRESHOLD, initState, dictGetD, dictSet, SIGHTING_THRESHOLD, pyAdd,
    show parseStudentId "student_1" = some 1 from by decide,
    show ("student_1" : String) ≠ "" from by decide]

theorem eval_processFace_after_two :
    (processFace RECOGNITION_THRESHOLD trivialDB ⟨[], [(1, 2)]⟩ qFace).1 =
      ⟨[1], [(1, 3)]⟩ := by
  norm_num [processFace, qFace, confidenceVal, RECOGNITION_THRESHOLD,
    dictGetD, dictSet, SIGHTING_THRESHOLD, pyAdd,
    show parseStudentId "student_1" = some 1 from by decide,
    show ("student_1" : String) ≠ "" from by decide]

theorem prep_fails_of_empty (inp : PrepInput)
    (h : buildKnownFaces inp.studentsWithPhotos = []) :
    prepare_face_recognition_db inp = (false, []) := by
  unfold prepare_face_recognition_db
  by_cases h1 : inp.courseExists
  · by_cases h2 : inp.isCourseTeacher
    · by_cases h3 : inp.studentsWithPhotos = []
      · simp [h1, h2, h3]
      · simp [h1, h2, h3, h]
    · simp [h2]
  · simp [h1]

theorem find?_append_none {α : Type} {p : α → Bool} {l1 l2 : List α}
    (h : l1.find? p = none) : (l1 ++ l2).find? p = l2.find? p := by
  induction l1 with
  | nil => simp
  | cons a rest ih =>
    cases hp : p a with
    | true => simp [List.find?, hp] at h
    | false =>
      simp only [List.find?, hp] at h
      simp only [List.cons_append, List.find?, hp]
      exact ih h

/-- C1: for every session state reachable from a fresh session by the
per-face loop, processing one more detected face moves an identity into
the confirmed set exactly when the face is a qualifying match for it, it
was not yet confirmed, and its sighting count reaches
`SIGHTING_THRESHOLD` by this increment (from `SIGHTING_THRESHOLD - 1`); a
confirmation event is emitted exactly at that transition; and a match for
an already-confirmed identity never changes its counter and never emits
another confirmation. -/
theorem confirmation_exactly_at_threshold (θ : ℚ) (db : Int → StudentRec)
    (fs : List FaceInfo) (f : FaceInfo) (id : Int) :
    ((id ∈ (processFace θ db (sessionAfter θ db fs) f).1.recognized ∧
        id ∉ (sessionAfter θ db fs).recognized) ↔
      (faceMatchFor θ f id ∧ id ∉ (sessionAfter θ db fs).recognized ∧
        countOf (sessionAfter θ db fs) id + 1 = SIGHTING_THRESHOLD ∧
        countOf (processFace θ db (sessionAfter θ db fs) f).1 id = SIGHTING_THRESHOLD)) ∧
    ((∃ e ∈ (processFace θ db (sessionAfter θ db fs) f).2.1, e.id = id) ↔
      (id ∈ (processFace θ db (sessionAfter θ db fs) f).1.recognized ∧
        id ∉ (sessionAfter θ db fs).recognized)) ∧
    (id ∈ (sessionAfter θ db fs).recognized →
      countOf (processFace θ db (sessionAfter θ db fs) f).1 id =
          countOf (sessionAfter θ db fs) id ∧
        ¬ ∃ e ∈ (processFace θ db (sessionAfter θ db fs) f).2.1, e.id = id) := by
  have hinv := inv_sessionAfter θ db fs
  refine ⟨?_, ?_, ?_⟩
  · rw [processFace_fst]
    exact faceStep_transition_iff θ _ f id hinv
  · rw [processFace_fst, processFace_event_for_iff]
    exact faceStep_event_iff θ _ f id
  · intro hid
    have hf := faceStep_confirmed_frozen θ (sessionAfter θ db fs) f id hid
    refine ⟨?_, ?_⟩
    · rw [processFace_fst]
      exact hf.1
    · intro hex
      exact hf.2.1 ((processFace_event_for_iff θ db _ f id).1 hex)

/-- Witness for C1: with two qualifying sightings of identity 1 already
accumulated, a third qualifying sighting confirms it (counter goes from 2
to `SIGHTING_THRESHOLD` = 3) and an event is emitted. -/
theorem confirmation_exactly_at_threshold_witness :
    (1 ∈ (processFace RECOGNITION_THRESHOLD trivialDB
        (sessionAfter RECOGNITION_THRESHOLD trivialDB [qFace, qFace]) qFace).1.recognized ∧
      1 ∉ (sessionAfter RECOGNITION_THRESHOLD trivialDB [qFace, qFace]).recognized) ∧
    (∃ e ∈ (processFace RECOGNITION_THRESHOLD trivialDB
        (sessionAfter RECOGNITION_THRESHOLD trivialDB [qFace, qFace]) qFace).2.1,
      e.id = 1) := by
  have happ := confirmation_exactly_at_threshold RECOGNITION_THRESHOLD trivialDB
    [qFace, qFace] qFace 1
  have htrans : 1 ∈ (processFace RECOGNITION_THRESHOLD trivialDB
      (sessionAfter RECOGNITION_THRESHOLD trivialDB [qFace, qFace]) qFace).1.recognized ∧
      1 ∉ (sessionAfter RECOGNITION_THRESHOLD trivialDB [qFace, qFace]).recognized := by
    refine happ.1.mpr ⟨qFace_matches, ?_, ?_, ?_⟩
    · rw [eval_two_qFaces]
      decide
    · rw [eval_two_qFaces]
      decide
    · rw [eval_two_qFaces, eval_processFace_after_two]
      decide
  exact ⟨htrans, happ.2.1.mpr htrans⟩

/-- C2 counterexample: after identity 1 is confirmed by three qualifying
sightings it is in the confirmed set AND still has an entry in the
sighting-counter map — the code never deletes the counter entry on
promotion, so the id is in both structures at once. -/
theorem confirmed_id_in_both_structures_cex :
    1 ∈ (sessionAfter RECOGNITION_THRESHOLD trivialDB [qFace, qFace, qFace]).recognized ∧
    dictLookup (sessionAfter RECOGNITION_THRESHOLD trivialDB
      [qFace, qFace, qFace]).sightings 1 = some 3 := by
  rw [eval_three_qFaces]
  exact ⟨by decide, by decide⟩

/-- C2 (amended): a confirmed identity is never removed from the
sighting-counter map; instead its entry persists, frozen at exactly
`SIGHTING_THRESHOLD`, for every reachable session state. -/
theorem confirmed_id_retained_in_counts (θ : ℚ) (db : Int → StudentRec)
    (fs : List FaceInfo) (id : Int)
    (h : id ∈ (sessionAfter θ db fs).recognized) :
    dictLookup (sessionAfter θ db fs).sightings id = some SIGHTING_THRESHOLD :=
  (inv_sessionAfter θ db fs id).1 h

/-- Witness for the amended C2 at identity 1 after three qualifying
sightings. -/
theorem confirmed_id_retained_in_counts_witness :
    1 ∈ (sessionAfter RECOGNITION_THRESHOLD trivialDB [qFace, qFace, qFace]).recognized ∧
    dictLookup (sessionAfter RECOGNITION_THRESHOLD trivialDB
      [qFace, qFace, qFace]).sightings 1 = some SIGHTING_THRESHOLD :=
  ⟨by rw [eval_three_qFaces]; decide,
   confirmed_id_retained_in_counts RECOGNITION_THRESHOLD trivialDB [qFace, qFace, qFace] 1
     (by rw [eval_three_qFaces]; decide)⟩

/-- C3 counterexample: a single frame containing two regions that both
qualify for identity 1 increments its sighting counter twice (0 to 2),
not at most once — the loop has no per-frame deduplication of repeated
identities. -/
theorem same_frame_two_regions_double_increment_cex :
    dictLookup initState.sightings 1 = none ∧
    dictLookup (process_frame_for_recognition RECOGNITION_THRESHOLD trivialDB initState
      true (.ok [qFace, qFace])).1.sightings 1 = some 2 := by
  constructor
  · decide
  · have h : (process_frame_for_recognition RECOGNITION_THRESHOLD trivialDB initState
        true (.ok [qFace, qFace])).1 =
        sessionAfter RECOGNITION_THRESHOLD trivialDB [qFace, qFace] := rfl
    rw [h, eval_two_qFaces]
    decide

/-- C3 (amended): counters are per-identity but increments are per-region:
within a frame, every region that qualifies for a not-yet-confirmed
identity increments that identity's counter by one (so several regions
matching the same identity in one frame each increment it); a region
matching an already-confirmed identity does not increment. -/
theorem each_qualifying_region_increments (θ : ℚ) (db : Int → StudentRec)
    (st : SessionState) (f : FaceInfo) (id : Int)
    (hm : faceMatchFor θ f id) :
    (id ∉ st.recognized →
      countOf (processFace θ db st f).1 id = countOf st id + 1) ∧
    (id ∈ st.recognized →
      countOf (processFace θ db st f).1 id = countOf st id) := by
  unfold faceMatchFor at hm
  constructor
  · intro hout
    rw [processFace_fst]
    exact faceStep_increment θ st f id hm hout
  · intro hin
    rw [processFace_fst]
    exact (faceStep_confirmed_frozen θ st f id hin).1

/-- Witness for the amended C3: a qualifying region for unconfirmed
identity 1 increments its counter from 0 to 1. -/
theorem each_qualifying_region_increments_witness :
    faceMatchFor RECOGNITION_THRESHOLD qFace 1 ∧
    (1 ∉ initState.recognized →
      countOf (processFace RECOGNITION_THRESHOLD trivialDB initState qFace).1 1 =
        countOf initState 1 + 1) :=
  ⟨qFace_matches,
   (each_qualifying_region_increments RECOGNITION_THRESHOLD trivialDB initState qFace 1
      qFace_matches).1⟩

/-- C4 counterexample: a face whose confidence is exactly
`1 - RECOGNITION_THRESHOLD` (distance exactly equal to the threshold) is
NOT a qualifying match: the code compares with strict `>`, so the boundary
case is rejected — the state is unchanged, no event is emitted, and the
face is drawn as Unknown. -/
theorem boundary_distance_does_not_qualify_cex :
    confidenceVal bFace = 1 - RECOGNITION_THRESHOLD ∧
    ¬ faceMatchFor RECOGNITION_THRESHOLD bFace 1 ∧
    (processFace RECOGNITION_THRESHOLD trivialDB initState bFace).1 = initState ∧
    (processFace RECOGNITION_THRESHOLD trivialDB initState bFace).2.1 = [] ∧
    (processFace RECOGNITION_THRESHOLD trivialDB initState bFace).2.2 =
      [⟨"Unknown", 0, 0, 10, 10, (0, 0, 255), 8 / 25⟩] := by
  have hnq : qualifyingId RECOGNITION_THRESHOLD bFace = none := by
    norm_num [qualifyingId, bFace, confidenceVal, RECOGNITION_THRESHOLD]
  refine ⟨by norm_num [confidenceVal, bFace, RECOGNITION_THRESHOLD], ?_, ?_, ?_, ?_⟩
  · intro hm
    unfold faceMatchFor at hm
    rw [hnq] at hm
    exact Option.noConfusion hm
  · norm_num [processFace, bFace, confidenceVal, RECOGNITION_THRESHOLD, initState]
  · norm_num [processFace, bFace, confidenceVal, RECOGNITION_THRESHOLD, initState]
  · norm_num [processFace, bFace, confidenceVal, RECOGNITION_THRESHOLD, initState]

/-- C4 (amended): a detected face is a qualifying match (and, for an
unconfirmed identity, increments the sighting counter) iff its truthy
`student_id` parses to the identity AND its confidence strictly exceeds
`1 - threshold` (equivalently, distance strictly below the threshold);
when the confidence equals `1 - threshold` exactly, nothing qualifies:
the state is unchanged and no event is emitted. -/
theorem qualifying_match_is_strict (θ : ℚ) (db : Int → StudentRec)
    (st : SessionState) (f : FaceInfo) (id : Int)
    (hout : id ∉ st.recognized) :
    (countOf (processFace θ db st f).1 id = countOf st id + 1 ↔ faceMatchFor θ f id) ∧
    (faceMatchFor θ f id ↔
      ((∃ s, f.student_id = some s ∧ s ≠ "" ∧ parseStudentId s = some id) ∧
        confidenceVal f > 1 - θ)) ∧
    (confidenceVal f = 1 - θ →
      (processFace θ db st f).1 = st ∧ (processFace θ db st f).2.1 = []) := by
  refine ⟨?_, qualifyingId_eq_some_iff θ f id, ?_⟩
  · constructor
    · intro hinc
      by_contra hnm
      rw [processFace_fst, faceStep_no_increment θ st f id hnm] at hinc
      omega
    · intro hm
      rw [processFace_fst]
      exact faceStep_increment θ st f id hm hout
  · intro hb
    have hq : qualifyingId θ f = none := by
      cases hs : f.student_id with
      | none => simp [qualifyingId, hs]
      | some s =>
        simp only [qualifyingId, hs]
        have : ¬ confidenceVal f > 1 - θ := by rw [hb]; exact lt_irrefl _
        simp [this]
    constructor
    · rw [processFace_fst]
      have : (faceStep θ st f).1 = st := by simp [faceStep, hq]
      rw [this]
    · have hmap : (processFace θ db st f).2.1.map (fun e => e.id) = [] := by
        rw [processFace_event_ids]
        have : (faceStep θ st f).2 = none := by simp [faceStep, hq]
        rw [this]
        rfl
      exact List.map_eq_nil_iff.1 hmap

/-- Witness for the amended C4: at identity 1 from a fresh state, the
increment happens for `qFace` (confidence 1/2 strictly above 8/25) and
the boundary face `bFace` leaves the state untouched. -/
theorem qualifying_match_is_strict_witness :
    (1 ∉ initState.recognized) ∧
    (countOf (processFace RECOGNITION_THRESHOLD trivialDB initState bFace).1 1 =
        countOf initState 1 + 1 ↔ faceMatchFor RECOGNITION_THRESHOLD bFace 1) ∧
    (confidenceVal bFace = 1 - RECOGNITION_THRESHOLD →
      (processFace RECOGNITION_THRESHOLD trivialDB initState bFace).1 = initState ∧
      (processFace RECOGNITION_THRESHOLD trivialDB initState bFace).2.1 = []) := by
  have happ := qualifying_match_is_strict RECOGNITION_THRESHOLD trivialDB initState bFace 1
    (by decide)
  exact ⟨by decide, happ.1, happ.2.2⟩

/-- C10: the per-face loop slices the detection result with
`[:MAX_FACES_PER_FRAME]`, so a frame's entire outcome (session state,
confirmation events, and drawn boxes) is identical to processing only the
first 50 detected faces: faces beyond the first 50 are never drawn, never
matched, never increment a counter, and never trigger a confirmation. -/
theorem faces_beyond_limit_ignored (θ : ℚ) (db : Int → StudentRec)
    (st : SessionState) (saveOk : Bool) (faces : List FaceInfo) :
    MAX_FACES_PER_FRAME = 50 ∧
    process_frame_for_recognition θ db st saveOk (.ok faces) =
      process_frame_for_recognition θ db st saveOk
        (.ok (faces.take MAX_FACES_PER_FRAME)) := by
  refine ⟨rfl, ?_⟩
  unfold process_frame_for_recognition
  by_cases h : saveOk = false
  · simp [h]
  · simp [h, List.take_take]

/-- C5: `mark_student_present` is idempotent per student, course, and day:
after a first call that created a record, a second call for the same
student/course/day returns `created = false`, leaves the table unchanged,
returns the very record the first call created, and the table holds
exactly one record for that student/course/day. -/
theorem mark_present_idempotent (db : List AttendanceRecord) (sid cid : Int)
    (day t1 t2 : Nat)
    (h : (mark_student_present db sid cid day t1).2.2 = true) :
    (mark_student_present (mark_student_present db sid cid day t1).1
        sid cid day t2).2.2 = false ∧
    (mark_student_present (mark_student_present db sid cid day t1).1
        sid cid day t2).1 = (mark_student_present db sid cid day t1).1 ∧
    (mark_student_present (mark_student_present db sid cid day t1).1
        sid cid day t2).2.1 = (mark_student_present db sid cid day t1).2.1 ∧
    countMatching (mark_student_present db sid cid day t1).1 sid cid day = 1 := by
  have hfind : db.find? (attMatches sid cid day) = none := by
    unfold mark_student_present at h
    cases hf : db.find? (attMatches sid cid day) with
    | none => rfl
    | some r => rw [hf] at h; simp at h
  have h1 : mark_student_present db sid cid day t1 =
      (db ++ [⟨sid, cid, day, t1, true⟩], ⟨sid, cid, day, t1, true⟩, true) := by
    unfold mark_student_present
    rw [hfind]
  have hr : attMatches sid cid day ⟨sid, cid, day, t1, true⟩ = true := by
    simp [attMatches]
  have hfind2 : (db ++ [(⟨sid, cid, day, t1, true⟩ : AttendanceRecord)]).find?
      (attMatches sid cid day) = some ⟨sid, cid, day, t1, true⟩ := by
    rw [find?_append_none hfind]
    simp [List.find?, hr]
  have h2 : mark_student_present (db ++ [⟨sid, cid, day, t1, true⟩]) sid cid day t2 =
      (db ++ [⟨sid, cid, day, t1, true⟩], ⟨sid, cid, day, t1, true⟩, false) := by
    unfold mark_student_present
    rw [hfind2]
  rw [h1]
  dsimp only
  refine ⟨by rw [h2], by rw [h2], by rw [h2], ?_⟩
  unfold countMatching
  rw [List.filter_append]
  have hnil : db.filter (attMatches sid cid day) = [] := by
    rw [List.filter_eq_nil_iff]
    intro a ha
    exact List.find?_eq_none.1 hfind a ha
  rw [hnil]
  simp [hr]

/-- Witness for C5: first call on an empty table creates the record; the
second call the same day is a no-op with `created = false`. -/
theorem mark_present_idempotent_witness :
    (mark_student_present [] 1 2 3 4).2.2 = true ∧
    (mark_student_present (mark_student_present [] 1 2 3 4).1 1 2 3 5).2.2 = false ∧
    (mark_student_present (mark_student_present [] 1 2 3 4).1 1 2 3 5).1 =
      (mark_student_present [] 1 2 3 4).1 ∧
    countMatching (mark_student_present [] 1 2 3 4).1 1 2 3 = 1 := by
  have happ := mark_present_idempotent [] 1 2 3 4 5 (by decide)
  exact ⟨by decide, happ.1, happ.2.1, happ.2.2.2⟩

/-- C6: when the known-identity set comes up empty at setup (no enrolled
student yields a usable face encoding), the connection is accepted, the
client receives an error message, and the socket is closed with setup
code 4004 — distinct from the authentication-failure code 4001; the
session never joins its processing group and never announces readiness. -/
theorem empty_known_faces_fails_setup (cid : Int) (inp : PrepInput)
    (h : buildKnownFaces inp.studentsWithPhotos = []) :
    (connect true cid inp).1 =
      [.accept,
       .send (.errorMsg
         "Failed to prepare face recognition. Ensure students have profile photos."),
       .close 4004] ∧
    (4004 : Nat) ≠ 4001 ∧
    ConnAction.groupJoin ∉ (connect true cid inp).1 ∧
    (∀ m n, ConnAction.send (.sessionReady m n) ∉ (connect true cid inp).1) := by
  have hlist : (connect true cid inp).1 =
      [.accept,
       .send (.errorMsg
         "Failed to prepare face recognition. Ensure students have profile photos."),
       .close 4004] := by
    simp [connect, prep_fails_of_empty inp h]
  refine ⟨hlist, by decide, ?_, ?_⟩
  · rw [hlist]
    decide
  · intro m n
    rw [hlist]
    simp

/-- Witness for C6: one enrolled student whose encoding extraction fails
leaves the cache empty; the session fails setup with code 4004. -/
theorem empty_known_faces_fails_setup_witness :
    buildKnownFaces emptyPrep.studentsWithPhotos = [] ∧
    (connect true 7 emptyPrep).1 =
      [.accept,
       .send (.errorMsg
         "Failed to prepare face recognition. Ensure students have profile photos."),
       .close 4004] :=
  ⟨rfl, (empty_known_faces_fails_setup 7 emptyPrep rfl).1⟩

/-- C7: every error raised while processing one frame is absorbed at the
frame boundary and the frame counts as having no faces: a failed temp-file
save, or any exception from the enhancement/detection stage, leaves the
session state untouched and yields an empty confirmation list, and an
undecodable image at the outer `process_frame` level likewise changes
nothing — no exception escapes, later frames start from the same state. -/
theorem frame_errors_absorbed (θ : ℚ) (db : Int → StudentRec) (st : SessionState) :
    (∀ detection, process_frame_for_recognition θ db st false detection = (st, [], [])) ∧
    (∀ (saveOk : Bool) (err : String),
      process_frame_for_recognition θ db st saveOk (.error err) = (st, [], [])) ∧
    process_frame θ db st .undecodable = (st, []) := by
  refine ⟨fun _ => rfl, fun saveOk err => ?_, rfl⟩
  cases saveOk <;> rfl

/-- C8 counterexample: a malformed (non-JSON) message is NOT silently
dropped — the consumer sends an error message back to the client
(consumers.py lines 112-117). -/
theorem malformed_message_not_silent_cex :
    (receive RECOGNITION_THRESHOLD trivialDB initState .malformed).2 =
      [.errorMsg "Invalid message format"] ∧
    (receive RECOGNITION_THRESHOLD trivialDB initState .malformed).2 ≠ [] := by
  refine ⟨rfl, ?_⟩
  simp [receive]

/-- C8 (amended): a malformed message leaves the session state unchanged
and the connection open but sends an `error` message back to the client;
an undecodable image and a missing/empty image payload are silently
dropped (state unchanged, nothing sent, connection stays open). -/
theorem transport_errors_behavior (θ : ℚ) (db : Int → StudentRec) (st : SessionState) :
    receive θ db st .malformed = (st, [.errorMsg "Invalid message format"]) ∧
    receive θ db st (.frame .undecodable) = (st, []) ∧
    receive θ db st (.frame .missing) = (st, []) :=
  ⟨rfl, rfl, rfl⟩

end SmartAttend
